import Mathlib

/-!
Shallow embedding of the Cafe_API Flask service
(src/main.py and src/route_utils/route_helpers.py).

JSON bodies are modelled by the inductive `JVal`; a Flask
`jsonify(key=value), status` pair becomes `HttpResponse.json body status`
where `body` is the object with the single key `key`.  Note that
`jsonify(error="x": "y")` in the source passes a dict as the keyword
value, so the resulting JSON nests that dict under the keyword: the
modelled bodies reproduce that nesting exactly.

The cafes table is a `List Cafe` passed explicitly; write handlers
return the new table.  A possible non-constraint storage failure at
commit time (disk error, lost connection, ...) is modelled by an
optional injected fault string carrying the Python repr text of the
raised exception; handlers that catch it classify that text exactly as
the source does, and a handler without a try/except block is modelled
as returning `Except.error` with the text, i.e. the exception
propagates out of the handler.
-/

namespace CafeAPI

/-- JSON values, as produced by Flask jsonify. -/
inductive JVal where
  | null : JVal
  | str : String → JVal
  | bool : Bool → JVal
  | arr : List JVal → JVal
  | obj : List (String × JVal) → JVal

/-- A stored row of the Cafe table (src/main.py lines 39-66).  All columns
except coffee_price are NOT NULL, so after a successful commit they are
plain strings or booleans; coffee_price is nullable. -/
structure Cafe where
  id : Nat
  name : String
  map_url : String
  img_url : String
  location : String
  seats : String
  has_toilet : Bool
  has_wifi : Bool
  has_sockets : Bool
  can_take_calls : Bool
  coffee_price : Option String
  deriving DecidableEq

/-- Python truthiness of an optional string: None and the empty string are
falsy, every other string is truthy. -/
def pyTruthy : Option String → Bool
  | none => false
  | some s => !(s == "")

/-- Optional string to JSON: Python None serialises to JSON null. -/
def joptStr : Option String → JVal
  | none => JVal.null
  | some s => JVal.str s

/-- Embedding of get_cafe_response (route_helpers.py lines 4-27): the dict
built for one cafe, in source order.  The expression cafe.map_url or "N/A"
substitutes "N/A" when map_url is falsy, i.e. the empty string (a stored
map_url is never None); likewise img_url.  The id column is not written
into the dict. -/
def get_cafe_response (cafe : Cafe) : List (String × JVal) :=
  [ ("name", JVal.str cafe.name),
    ("map_url", JVal.str (if cafe.map_url = "" then "N/A" else cafe.map_url)),
    ("img_url", JVal.str (if cafe.img_url = "" then "N/A" else cafe.img_url)),
    ("location", JVal.str cafe.location),
    ("seats", JVal.str cafe.seats),
    ("has_toilet", JVal.bool cafe.has_toilet),
    ("has_wifi", JVal.bool cafe.has_wifi),
    ("has_sockets", JVal.bool cafe.has_sockets),
    ("can_take_calls", JVal.bool cafe.can_take_calls),
    ("coffee_price", joptStr cafe.coffee_price) ]

/-- A handler outcome at the HTTP level: either a jsonify body with a
status code, or the 404 HTML error page raised by db.get_or_404 with the
given description (a Flask NotFound abort, rendered as status 404). -/
inductive HttpResponse where
  | json (body : JVal) (status : Nat)
  | notFoundAbort (description : String)

/-- Status code of a response; a get_or_404 abort renders as 404. -/
def HttpResponse.status : HttpResponse → Nat
  | json _ s => s
  | notFoundAbort _ => 404

/-- Body of jsonify(error=("Not Found": "No cafes found in the database")). -/
def notFoundBody : JVal :=
  JVal.obj [("error", JVal.obj [("Not Found", JVal.str "No cafes found in the database")])]

/-- Body of jsonify(cafes=[...]) for a list of cafes. -/
def cafesBody (cafes : List Cafe) : JVal :=
  JVal.obj [("cafes", JVal.arr (cafes.map (fun c => JVal.obj (get_cafe_response c))))]

/-- Body of jsonify(cafe=...) for a single cafe. -/
def cafeBody (c : Cafe) : JVal :=
  JVal.obj [("cafe", JVal.obj (get_cafe_response c))]

/-- The argument passed to many_responses.  In the source it is either a
plain Python list (search_cafe passes .all()) or a SQLAlchemy ScalarResult
(all_cafes passes .scalars()).  Python evaluates not obj differently on
the two: a list is falsy exactly when empty, while ScalarResult defines
neither a bool nor a len conversion, so it is always truthy. -/
inductive SeqArg where
  | pylist (cafes : List Cafe)
  | scalarResult (cafes : List Cafe)

/-- The rows carried by the argument. -/
def SeqArg.cafes : SeqArg → List Cafe
  | pylist cs => cs
  | scalarResult cs => cs

/-- Truthiness of the argument under Python bool(). -/
def SeqArg.pyBool : SeqArg → Bool
  | pylist cs => !cs.isEmpty
  | scalarResult _ => true

/-- Embedding of many_responses (route_helpers.py lines 29-35): the
emptiness check is written if not all_cafes, i.e. Python truthiness of
the argument object, not emptiness of the row sequence. -/
def many_responses (arg : SeqArg) : HttpResponse :=
  if arg.pyBool = false then
    HttpResponse.json notFoundBody 404
  else
    HttpResponse.json (cafesBody arg.cafes) 200

/-- Ordering used by ORDER BY name: string comparison on the name column. -/
def nameLE (a b : Cafe) : Prop := a.name ≤ b.name

instance : DecidableRel nameLE := fun a b => inferInstanceAs (Decidable (a.name ≤ b.name))

instance : IsTotal Cafe nameLE := ⟨fun a b => le_total a.name b.name⟩

instance : IsTrans Cafe nameLE := ⟨fun _ _ _ h h2 => le_trans h h2⟩

/-- Rows of the table sorted by name ascending, as ORDER BY Cafe.name. -/
def sortByName (table : List Cafe) : List Cafe :=
  List.insertionSort nameLE table

/-- Embedding of random_cafe (main.py lines 79-93).  The query orders the
table by func.random() and takes the first row; the argument is the
shuffled table, so the handler is deterministic in it. -/
def random_cafe (shuffled : List Cafe) : HttpResponse :=
  match shuffled with
  | [] => HttpResponse.json notFoundBody 404
  | c :: _ => HttpResponse.json (cafeBody c) 200

/-- Embedding of all_cafes (main.py lines 96-105): selects the whole table
ordered by name and hands the .scalars() result to many_responses. -/
def all_cafes (table : List Cafe) : HttpResponse :=
  many_responses (SeqArg.scalarResult (sortByName table))

/-- Rows matched by search_cafe: filter_by(location = loc) is an exact,
case-sensitive equality on the location column; when the loc query
parameter is missing the filter compares the column against None, which
no stored (NOT NULL) location satisfies. -/
def search_matches (loc : Option String) (table : List Cafe) : List Cafe :=
  sortByName (table.filter (fun c => some c.location == loc))

/-- Embedding of search_cafe (main.py lines 108-154): the .all() list of
matches goes to many_responses. -/
def search_cafe (loc : Option String) (table : List Cafe) : HttpResponse :=
  many_responses (SeqArg.pylist (search_matches loc table))

/-- The ten form fields read by new_cafe_check; request.form.get returns
None for an absent field, so every field is an optional string. -/
structure NewCafeForm where
  name : Option String
  map_url : Option String
  img_url : Option String
  loc : Option String
  sockets : Option String
  toilet : Option String
  wifi : Option String
  calls : Option String
  seats : Option String
  coffee_price : Option String
  deriving DecidableEq

/-- A candidate Cafe row before commit: string columns may still be None
(the store rejects them at commit), boolean columns are already coerced
by bool() in the builder. -/
structure CafeCandidate where
  name : Option String
  map_url : Option String
  img_url : Option String
  location : Option String
  has_sockets : Bool
  has_toilet : Bool
  has_wifi : Bool
  can_take_calls : Bool
  seats : Option String
  coffee_price : Option String
  deriving DecidableEq

/-- Embedding of new_cafe_check (route_helpers.py lines 37-50): each raw
form value is copied through, and the four boolean columns are bool() of
the raw value, i.e. Python truthiness. -/
def new_cafe_check (form : NewCafeForm) : CafeCandidate :=
  { name := form.name,
    map_url := form.map_url,
    img_url := form.img_url,
    location := form.loc,
    has_sockets := pyTruthy form.sockets,
    has_toilet := pyTruthy form.toilet,
    has_wifi := pyTruthy form.wifi,
    can_take_calls := pyTruthy form.calls,
    seats := form.seats,
    coffee_price := form.coffee_price }

/-- Integrity errors SQLite raises when committing an insert of the Cafe
table: a NULL in a NOT NULL column, or a duplicate in the UNIQUE name
column.  The column name is recorded to reproduce the error text. -/
inductive DbError where
  | notNull (col : String)
  | unique (col : String)
  deriving DecidableEq

/-- Python repr text of the IntegrityError for each case.  Only the
fragments the handlers string-match on matter; the surrounding repr
punctuation is elided. -/
def dbErrorRepr : DbError → String
  | DbError.notNull col =>
      "IntegrityError sqlite3.IntegrityError NOT NULL constraint failed: cafe." ++ col
  | DbError.unique col =>
      "IntegrityError sqlite3.IntegrityError UNIQUE constraint failed: cafe." ++ col

/-- Whether the second list is an initial segment of the first. -/
def listBeginsWith : List Char → List Char → Bool
  | _, [] => true
  | [], _ :: _ => false
  | c :: cs, d :: ds => c == d && listBeginsWith cs ds

/-- Whether the needle occurs contiguously somewhere in the haystack. -/
def listHasSegment (needle : List Char) : List Char → Bool
  | [] => listBeginsWith [] needle
  | c :: cs => listBeginsWith (c :: cs) needle || listHasSegment needle cs

/-- Substring test, used to model the Python in operator on strings. -/
def containsSubstr (haystack needle : String) : Bool :=
  listHasSegment needle.toList haystack.toList

/-- Primary key assigned by SQLite to a fresh row: one more than the
largest id in the table (1 on an empty table). -/
def nextId (table : List Cafe) : Nat :=
  (table.foldr (fun c m => max c.id m) 0) + 1

/-- Committing an insert of a candidate row.  SQLite checks NOT NULL
column by column in table order before the UNIQUE index on name; on
success the row is appended with a fresh id. -/
def insertCafe (table : List Cafe) (cand : CafeCandidate) :
    Except DbError (List Cafe) :=
  match cand.name, cand.map_url, cand.img_url, cand.location, cand.seats with
  | none, _, _, _, _ => Except.error (DbError.notNull "name")
  | some _, none, _, _, _ => Except.error (DbError.notNull "map_url")
  | some _, some _, none, _, _ => Except.error (DbError.notNull "img_url")
  | some _, some _, some _, none, _ => Except.error (DbError.notNull "location")
  | some _, some _, some _, some _, none => Except.error (DbError.notNull "seats")
  | some n, some mu, some iu, some l, some st =>
      if table.any (fun r => r.name == n) then
        Except.error (DbError.unique "name")
      else
        Except.ok (table ++
          [{ id := nextId table, name := n, map_url := mu, img_url := iu,
             location := l, seats := st,
             has_toilet := cand.has_toilet, has_wifi := cand.has_wifi,
             has_sockets := cand.has_sockets,
             can_take_calls := cand.can_take_calls,
             coffee_price := cand.coffee_price }])

/-- Body of jsonify(success=("success": msg)): the success dict is nested
under the success keyword. -/
def successBody : JVal :=
  JVal.obj [("success", JVal.obj [("success", JVal.str "Successfully added the new cafe")])]

/-- Body of jsonify(error=("error": msg)): the error dict is nested under
the error keyword. -/
def errBody (msg : String) : JVal :=
  JVal.obj [("error", JVal.obj [("error", JVal.str msg)])]

/-- The shared except branch of add_cafe (main.py lines 192-202) and
update_price (lines 234-244): repr of the caught exception is classified
by substring matching, in source order. -/
def classify_error (error_string : String) : HttpResponse :=
  if containsSubstr error_string "NOT NULL constraint failed" then
    HttpResponse.json (errBody "Missing input parameters") 400
  else if containsSubstr error_string "UNIQUE constraint failed" then
    HttpResponse.json (errBody "Duplicate entry") 400
  else
    HttpResponse.json (errBody "Error writing to database") 400

/-- Outcome of a write handler that returned to Flask: the response, the
table after the request, and whether the handler itself ran
db.session.close(). -/
structure WriteOutcome where
  resp : HttpResponse
  table : List Cafe
  closed : Bool

/-- Embedding of add_cafe (main.py lines 157-205).  The whole body sits
in try/except (Exception, IntegrityError)/finally, so every failure is
caught, rolled back (the table is returned unchanged) and classified,
and the finally block closes the session on every path.  `fault` injects
a possible non-constraint storage failure at commit, carrying the repr
text of the raised exception. -/
def add_cafe (form : NewCafeForm) (fault : Option String) (table : List Cafe) :
    Except String WriteOutcome :=
  match insertCafe table (new_cafe_check form) with
  | Except.error e =>
      Except.ok { resp := classify_error (dbErrorRepr e), table := table, closed := true }
  | Except.ok table2 =>
      match fault with
      | some msg =>
          Except.ok { resp := classify_error msg, table := table, closed := true }
      | none =>
          Except.ok { resp := HttpResponse.json successBody 200, table := table2, closed := true }

/-- Table after setting coffee_price of the row with the given primary
key to the given value; every other column and row is untouched. -/
def setPrice (cafe_id : Nat) (v : String) (table : List Cafe) : List Cafe :=
  table.map (fun r => if r.id = cafe_id then { r with coffee_price := some v } else r)

/-- Embedding of update_price (main.py lines 208-247).  The new_price
guard and the get_or_404 lookup run before the try block, so those two
exits do not pass through the finally; the commit and its except/finally
mirror add_cafe.  Setting coffee_price (a nullable, non-unique column) to
a string violates no constraint, so only an injected fault can fail. -/
def update_price (cafe_id : Nat) (new_price : Option String) (fault : Option String)
    (table : List Cafe) : Except String WriteOutcome :=
  if pyTruthy new_price = false then
    Except.ok { resp := HttpResponse.json (errBody "coffee_price cannot be null.") 400,
                table := table, closed := false }
  else
    match table.find? (fun r => r.id == cafe_id) with
    | none =>
        Except.ok { resp := HttpResponse.notFoundAbort "This ID Does not Exist.",
                    table := table, closed := false }
    | some _ =>
        match fault with
        | some msg =>
            Except.ok { resp := classify_error msg, table := table, closed := true }
        | none =>
            Except.ok { resp := HttpResponse.json successBody 200,
                        table := setPrice cafe_id (new_price.getD "") table,
                        closed := true }

/-- Embedding of delete_cafe (main.py lines 250-265).  The api-key guard
is if not api_key or api_key != SECRET_API, with SECRET_API read from the
environment (None when unset).  There is no try/except in this handler:
a storage failure at commit propagates out of it (Except.error), and
db.session.close() runs only on the success return. -/
def delete_cafe (cafe_id : Nat) (api_key : Option String) (secret : Option String)
    (fault : Option String) (table : List Cafe) : Except String WriteOutcome :=
  if pyTruthy api_key = false ∨ api_key ≠ secret then
    Except.ok { resp := HttpResponse.json (errBody "Not Authorized to perform this action.") 403,
                table := table, closed := false }
  else
    match table.find? (fun r => r.id == cafe_id) with
    | none =>
        Except.ok { resp := HttpResponse.notFoundAbort "This ID Does not Exist.",
                    table := table, closed := false }
    | some _ =>
        match fault with
        | some msg => Except.error msg
        | none =>
            Except.ok { resp := HttpResponse.json successBody 200,
                        table := table.filter (fun r => !(r.id == cafe_id)),
                        closed := true }

/-- A sample stored row, used to evaluate the handlers at concrete inputs. -/
def cafe1 : Cafe :=
  { id := 1, name := "Cafe A", map_url := "http://maps/a", img_url := "http://img/a",
    location := "London", seats := "20", has_toilet := true, has_wifi := false,
    has_sockets := true, can_take_calls := false, coffee_price := some "3.00" }

/-- A sample complete form submission for /api/add. -/
def form1 : NewCafeForm :=
  { name := some "Cafe B", map_url := some "http://maps/b", img_url := some "http://img/b",
    loc := some "Paris", sockets := some "yes", toilet := some "", wifi := none,
    calls := some "false", seats := some "30", coffee_price := some "2.50" }

/-- The row a successful insert of form1 into the table [cafe1] commits:
fresh id 2, raw strings copied, booleans by truthiness of the raw value. -/
def cafe2new : Cafe :=
  { id := 2, name := "Cafe B", map_url := "http://maps/b", img_url := "http://img/b",
    location := "Paris", seats := "30", has_toilet := false, has_wifi := false,
    has_sockets := true, can_take_calls := true, coffee_price := some "2.50" }

/-- The form form1 with the required name field absent. -/
def form_missing : NewCafeForm :=
  { form1 with name := none }

/-- The form form1 renamed to collide with the name of cafe1. -/
def form_dup : NewCafeForm :=
  { form1 with name := some "Cafe A" }

/-- Every branch of the shared classification code answers with status 400. -/
theorem classify_error_status (s : String) : (classify_error s).status = 400 := by
  unfold classify_error
  split
  · rfl
  · split <;> rfl

/-- With a nonempty secret, presenting exactly the secret passes the api-key
guard of delete_cafe. -/
theorem delete_guard_pass (s : String) (hs : s ≠ "") :
    ¬(pyTruthy (some s) = false ∨ (some s : Option String) ≠ some s) := by
  intro h
  rcases h with h1 | h2
  · simp [pyTruthy] at h1
    exact hs h1
  · exact h2 rfl

/-- C1: evaluation of the formatter and of GET /api/all on an empty table.
The formatter answers 404 on an empty Python list, as the claim says for
the search path; but all_cafes hands it a ScalarResult, which is always
truthy, so on an empty table the endpoint answers 200 with an empty cafes
array instead of the claimed 404. -/
theorem c1_empty_list_vs_scalar_result :
    many_responses (SeqArg.pylist []) = HttpResponse.json notFoundBody 404 ∧
    (SeqArg.scalarResult []).pyBool = true ∧
    all_cafes [] = HttpResponse.json (JVal.obj [("cafes", JVal.arr [])]) 200 :=
  ⟨rfl, rfl, rfl⟩

/-- C2 counterexample: at the concrete row cafe1, the projection built by
get_cafe_response carries no id key at all, so the formatter does not
project all fields of the entity. -/
theorem c2_id_missing_from_projection :
    List.lookup "id" (get_cafe_response cafe1) = none ∧
    ((get_cafe_response cafe1).map Prod.fst).contains "id" = false :=
  ⟨rfl, rfl⟩

/-- C2 (amended): the single-entity formatter projects every field except
id into a flat structure, substituting "N/A" for map_url and img_url when
they are the empty string, while name and location are passed through
unchanged with no fallback. -/
theorem c2_projection_fields (c : Cafe) :
    (get_cafe_response c).map Prod.fst =
      ["name", "map_url", "img_url", "location", "seats", "has_toilet",
       "has_wifi", "has_sockets", "can_take_calls", "coffee_price"] ∧
    ((get_cafe_response c).map Prod.fst).contains "id" = false ∧
    List.lookup "name" (get_cafe_response c) = some (JVal.str c.name) ∧
    List.lookup "location" (get_cafe_response c) = some (JVal.str c.location) ∧
    List.lookup "map_url" (get_cafe_response c) =
      some (JVal.str (if c.map_url = "" then "N/A" else c.map_url)) ∧
    List.lookup "img_url" (get_cafe_response c) =
      some (JVal.str (if c.img_url = "" then "N/A" else c.img_url)) ∧
    List.lookup "seats" (get_cafe_response c) = some (JVal.str c.seats) ∧
    List.lookup "has_toilet" (get_cafe_response c) = some (JVal.bool c.has_toilet) ∧
    List.lookup "has_wifi" (get_cafe_response c) = some (JVal.bool c.has_wifi) ∧
    List.lookup "has_sockets" (get_cafe_response c) = some (JVal.bool c.has_sockets) ∧
    List.lookup "can_take_calls" (get_cafe_response c) = some (JVal.bool c.can_take_calls) ∧
    List.lookup "coffee_price" (get_cafe_response c) = some (joptStr c.coffee_price) :=
  ⟨rfl, rfl, rfl, rfl, rfl, rfl, rfl, rfl, rfl, rfl, rfl, rfl⟩

/-- C8: the Entity Builder derives each of the four boolean columns from
Python truthiness of the raw form string: an absent value or the empty
string gives false, and any nonempty string, the literal "false"
included, gives true. -/
theorem c8_builder_bool_truthiness (form : NewCafeForm) (s : String) :
    (new_cafe_check form).has_sockets = pyTruthy form.sockets ∧
    (new_cafe_check form).has_toilet = pyTruthy form.toilet ∧
    (new_cafe_check form).has_wifi = pyTruthy form.wifi ∧
    (new_cafe_check form).can_take_calls = pyTruthy form.calls ∧
    pyTruthy none = false ∧
    pyTruthy (some "") = false ∧
    pyTruthy (some s) = !(s == "") ∧
    pyTruthy (some "false") = true :=
  ⟨rfl, rfl, rfl, rfl, rfl, rfl, rfl, rfl⟩

/-- C9: GET /api/random on an empty table answers 404 with the Not-Found
body, and on a nonempty table answers 200 with a formatted record under a
cafe key that is a member of the stored set; the shuffled list the query
produces is a permutation of the table. -/
theorem c9_random_membership (table shuffled : List Cafe)
    (hperm : shuffled.Perm table) :
    (table = [] → random_cafe shuffled = HttpResponse.json notFoundBody 404) ∧
    (table ≠ [] →
      ∃ c, c ∈ table ∧ random_cafe shuffled = HttpResponse.json (cafeBody c) 200) := by
  constructor
  · intro h
    subst h
    rw [hperm.eq_nil]
    rfl
  · intro h
    cases hs : shuffled with
    | nil =>
        rw [hs] at hperm
        exact absurd hperm.symm.eq_nil h
    | cons c rest =>
        refine ⟨c, ?_, ?_⟩
        · have hc : c ∈ shuffled := by
            rw [hs]
            exact List.mem_cons_self c rest
          exact hperm.mem_iff.mp hc
        · rfl

/-- C9 witness: the theorem applied to the one-row table and to the empty
table. -/
theorem c9_random_membership_witness :
    (∃ c, c ∈ [cafe1] ∧ random_cafe [cafe1] = HttpResponse.json (cafeBody c) 200) ∧
    random_cafe ([] : List Cafe) = HttpResponse.json notFoundBody 404 :=
  ⟨(c9_random_membership [cafe1] [cafe1] (List.Perm.refl _)).2 (by simp),
   (c9_random_membership [] [] (List.Perm.refl _)).1 rfl⟩

/-- C10: GET /api/search returns exactly the rows whose location equals
loc under case-sensitive equality, sorted by name ascending, through the
same formatter as /api/all; a missing loc parameter is compared against
None, matches no stored row, and therefore yields the empty-result 404
response. -/
theorem c10_search_exact_match (l : String) (table : List Cafe) :
    (∀ c : Cafe, c ∈ search_matches (some l) table ↔ c ∈ table ∧ c.location = l) ∧
    (search_matches (some l) table).Perm (table.filter (fun c => c.location == l)) ∧
    List.Sorted nameLE (search_matches (some l) table) ∧
    search_cafe (some l) table =
      (if (search_matches (some l) table).isEmpty = true then
        HttpResponse.json notFoundBody 404
      else
        HttpResponse.json (cafesBody (search_matches (some l) table)) 200) ∧
    search_matches none table = [] ∧
    search_cafe none table = HttpResponse.json notFoundBody 404 := by
  have hnone : search_matches none table = [] := by
    unfold search_matches sortByName
    rw [List.filter_eq_nil_iff.mpr (fun c _ => by simp)]
    rfl
  refine ⟨?_, ?_, ?_, ?_, hnone, ?_⟩
  · intro c
    simp [search_matches, sortByName, List.mem_insertionSort, List.mem_filter]
  · exact List.perm_insertionSort nameLE _
  · exact List.sorted_insertionSort nameLE _
  · cases h : (search_matches (some l) table).isEmpty with
    | true => simp [search_cafe, many_responses, SeqArg.pyBool, SeqArg.cafes, h]
    | false => simp [search_cafe, many_responses, SeqArg.pyBool, SeqArg.cafes, h]
  · unfold search_cafe
    rw [hnone]
    rfl

/-- C3 counterexample: with a valid key, an existing id and a storage
failure at commit, the delete handler, which has no try/except, lets the
exception propagate to the caller instead of translating it. -/
theorem c3_delete_fault_escapes :
    delete_cafe 1 (some "topsecret") (some "topsecret")
        (some "OperationalError: disk I/O error") [cafe1] =
      Except.error "OperationalError: disk I/O error" := rfl

/-- C3 (amended): insert failures are all caught: /api/add always returns
a response, closes the session on every path, and on failure answers 400
with the table unchanged.  Update failures at commit are likewise caught:
/api/update-price always returns a response and either succeeds or leaves
the table unchanged.  The delete path has no handler: a storage failure
at its commit propagates out of the handler unhandled. -/
theorem c3_write_fault_handling (form : NewCafeForm) (fault : Option String)
    (table : List Cafe) (cafe_id : Nat) (price key : Option String) (msg : String)
    (hkey : pyTruthy key = true)
    (hid : (table.find? (fun r => r.id == cafe_id)).isSome = true) :
    (∃ o, add_cafe form fault table = Except.ok o ∧ o.closed = true ∧
        (o.resp.status = 200 ∨ (o.resp.status = 400 ∧ o.table = table))) ∧
    (∃ o, update_price cafe_id price fault table = Except.ok o ∧
        (o.resp.status = 200 ∨ o.table = table)) ∧
    delete_cafe cafe_id key key (some msg) table = Except.error msg := by
  refine ⟨?_, ?_, ?_⟩
  · cases hins : insertCafe table (new_cafe_check form) with
    | error e =>
        refine ⟨{ resp := classify_error (dbErrorRepr e), table := table, closed := true },
                ?_, rfl, Or.inr ⟨classify_error_status _, rfl⟩⟩
        simp only [add_cafe, hins]
    | ok t2 =>
        cases fault with
        | none =>
            refine ⟨{ resp := HttpResponse.json successBody 200, table := t2, closed := true },
                    ?_, rfl, Or.inl rfl⟩
            simp only [add_cafe, hins]
        | some m =>
            refine ⟨{ resp := classify_error m, table := table, closed := true },
                    ?_, rfl, Or.inr ⟨classify_error_status _, rfl⟩⟩
            simp only [add_cafe, hins]
  · cases hp : pyTruthy price with
    | false =>
        refine ⟨{ resp := HttpResponse.json (errBody "coffee_price cannot be null.") 400,
                  table := table, closed := false }, ?_, Or.inr rfl⟩
        unfold update_price
        rw [if_pos hp]
    | true =>
        cases hf : table.find? (fun r => r.id == cafe_id) with
        | none =>
            refine ⟨{ resp := HttpResponse.notFoundAbort "This ID Does not Exist.",
                      table := table, closed := false }, ?_, Or.inr rfl⟩
            unfold update_price
            rw [if_neg (by simp [hp]), hf]
        | some c =>
            cases fault with
            | none =>
                refine ⟨{ resp := HttpResponse.json successBody 200,
                          table := setPrice cafe_id (price.getD "") table,
                          closed := true }, ?_, Or.inl rfl⟩
                unfold update_price
                rw [if_neg (by simp [hp]), hf]
            | some m =>
                refine ⟨{ resp := classify_error m, table := table, closed := true },
                        ?_, Or.inr rfl⟩
                unfold update_price
                rw [if_neg (by simp [hp]), hf]
  · have hno : ¬(pyTruthy key = false ∨ key ≠ key) := by
      intro h
      rcases h with h1 | h2
      · rw [hkey] at h1
        exact Bool.noConfusion h1
      · exact h2 rfl
    obtain ⟨c, hc⟩ := Option.isSome_iff_exists.mp hid
    unfold delete_cafe
    rw [if_neg hno, hc]

/-- C3 witness: the amended statement applied at a one-row table, a
complete form, a valid key and an injected commit failure. -/
theorem c3_write_fault_handling_witness :
    delete_cafe 1 (some "topsecret") (some "topsecret") (some "boom") [cafe1] =
      Except.error "boom" ∧
    (∃ o, add_cafe form1 none [cafe1] = Except.ok o ∧ o.closed = true ∧
        (o.resp.status = 200 ∨ (o.resp.status = 400 ∧ o.table = [cafe1]))) :=
  ⟨(c3_write_fault_handling form1 none [cafe1] 1 none (some "topsecret") "boom" rfl rfl).2.2,
   (c3_write_fault_handling form1 none [cafe1] 1 none (some "topsecret") "boom" rfl rfl).1⟩

/-- C4 counterexample: a successful insert answers 200, but its body is
the success dict nested under a success key by jsonify, not the flat
object the claim states. -/
theorem c4_success_body_not_flat :
    add_cafe form1 none [cafe1] =
      Except.ok { resp := HttpResponse.json successBody 200,
                  table := [cafe1, cafe2new], closed := true } ∧
    successBody ≠ JVal.obj [("success", JVal.str "Successfully added the new cafe")] :=
  ⟨rfl, by simp [successBody]⟩

/-- C4 (amended): every successful insert answers 200 with body
(success: (success: Successfully added the new cafe)), the message dict
nested under a success key, and successful update and delete requests
answer with this very same body verbatim. -/
theorem c4_success_message_shared (form : NewCafeForm) (table table2 : List Cafe)
    (cafe_id : Nat) (v s : String) (c : Cafe)
    (hins : insertCafe table (new_cafe_check form) = Except.ok table2)
    (hv : pyTruthy (some v) = true)
    (hs : s ≠ "")
    (hfind : table.find? (fun r => r.id == cafe_id) = some c) :
    add_cafe form none table =
      Except.ok { resp := HttpResponse.json successBody 200, table := table2, closed := true } ∧
    update_price cafe_id (some v) none table =
      Except.ok { resp := HttpResponse.json successBody 200,
                  table := setPrice cafe_id v table, closed := true } ∧
    delete_cafe cafe_id (some s) (some s) none table =
      Except.ok { resp := HttpResponse.json successBody 200,
                  table := table.filter (fun r => !(r.id == cafe_id)), closed := true } ∧
    successBody =
      JVal.obj [("success", JVal.obj [("success", JVal.str "Successfully added the new cafe")])] := by
  refine ⟨?_, ?_, ?_, rfl⟩
  · simp only [add_cafe, hins]
  · unfold update_price
    rw [if_neg (by simp [hv]), hfind]
    rfl
  · unfold delete_cafe
    rw [if_neg (delete_guard_pass s hs), hfind]

/-- C4 witness: the amended statement applied at the one-row table. -/
theorem c4_success_message_shared_witness :
    add_cafe form1 none [cafe1] =
      Except.ok { resp := HttpResponse.json successBody 200,
                  table := [cafe1, cafe2new], closed := true } ∧
    update_price 1 (some "4.50") none [cafe1] =
      Except.ok { resp := HttpResponse.json successBody 200,
                  table := setPrice 1 "4.50" [cafe1], closed := true } ∧
    delete_cafe 1 (some "topsecret") (some "topsecret") none [cafe1] =
      Except.ok { resp := HttpResponse.json successBody 200,
                  table := [cafe1].filter (fun r => !(r.id == 1)), closed := true } := by
  obtain ⟨h1, h2, h3, -⟩ :=
    c4_success_message_shared form1 [cafe1] [cafe1, cafe2new] 1 "4.50" "topsecret" cafe1
      rfl rfl (by decide) rfl
  exact ⟨h1, h2, h3⟩

/-- C5: a commit failing a NOT NULL constraint is answered 400 Missing
input parameters, a duplicate name 400 Duplicate entry, and any other
storage failure, classified by substring search over the repr text of
the exception, 400 Error writing to database; each failure rolls the
transaction back, so the table is returned unchanged. -/
theorem c5_add_commit_classification (form : NewCafeForm) (table : List Cafe)
    (fault : Option String) (msg n mu iu lo st : String) :
    (((new_cafe_check form).name = none ∨ (new_cafe_check form).map_url = none ∨
      (new_cafe_check form).img_url = none ∨ (new_cafe_check form).location = none ∨
      (new_cafe_check form).seats = none) →
        add_cafe form fault table =
          Except.ok { resp := HttpResponse.json (errBody "Missing input parameters") 400,
                      table := table, closed := true }) ∧
    ((new_cafe_check form).name = some n → (new_cafe_check form).map_url = some mu →
     (new_cafe_check form).img_url = some iu → (new_cafe_check form).location = some lo →
     (new_cafe_check form).seats = some st →
     table.any (fun r => r.name == n) = true →
        add_cafe form fault table =
          Except.ok { resp := HttpResponse.json (errBody "Duplicate entry") 400,
                      table := table, closed := true }) ∧
    ((new_cafe_check form).name = some n → (new_cafe_check form).map_url = some mu →
     (new_cafe_check form).img_url = some iu → (new_cafe_check form).location = some lo →
     (new_cafe_check form).seats = some st →
     table.any (fun r => r.name == n) = false →
     containsSubstr msg "NOT NULL constraint failed" = false →
     containsSubstr msg "UNIQUE constraint failed" = false →
        add_cafe form (some msg) table =
          Except.ok { resp := HttpResponse.json (errBody "Error writing to database") 400,
                      table := table, closed := true }) := by
  refine ⟨?_, ?_, ?_⟩
  · intro hmiss
    cases h1 : (new_cafe_check form).name with
    | none =>
        simp only [add_cafe, insertCafe, h1]
        rfl
    | some a =>
        cases h2 : (new_cafe_check form).map_url with
        | none =>
            simp only [add_cafe, insertCafe, h1, h2]
            rfl
        | some b =>
            cases h3 : (new_cafe_check form).img_url with
            | none =>
                simp only [add_cafe, insertCafe, h1, h2, h3]
                rfl
            | some d =>
                cases h4 : (new_cafe_check form).location with
                | none =>
                    simp only [add_cafe, insertCafe, h1, h2, h3, h4]
                    rfl
                | some e =>
                    cases h5 : (new_cafe_check form).seats with
                    | none =>
                        simp only [add_cafe, insertCafe, h1, h2, h3, h4, h5]
                        rfl
                    | some f =>
                        rcases hmiss with hm | hm | hm | hm | hm
                        · rw [h1] at hm; exact Option.noConfusion hm
                        · rw [h2] at hm; exact Option.noConfusion hm
                        · rw [h3] at hm; exact Option.noConfusion hm
                        · rw [h4] at hm; exact Option.noConfusion hm
                        · rw [h5] at hm; exact Option.noConfusion hm
  · intro h1 h2 h3 h4 h5 hdup
    simp only [add_cafe, insertCafe, h1, h2, h3, h4, h5, hdup]
    rfl
  · intro h1 h2 h3 h4 h5 hdup hm1 hm2
    have hcl : classify_error msg =
        HttpResponse.json (errBody "Error writing to database") 400 := by
      unfold classify_error
      rw [if_neg (by simp [hm1]), if_neg (by simp [hm2])]
    simp only [add_cafe, insertCafe, h1, h2, h3, h4, h5, hdup]
    rw [hcl]
    rfl

/-- C5 witness: the classification applied to a form missing the name, a
form duplicating the stored name, and a complete form with an injected
non-constraint storage failure. -/
theorem c5_add_commit_classification_witness :
    add_cafe form_missing none [cafe1] =
      Except.ok { resp := HttpResponse.json (errBody "Missing input parameters") 400,
                  table := [cafe1], closed := true } ∧
    add_cafe form_dup none [cafe1] =
      Except.ok { resp := HttpResponse.json (errBody "Duplicate entry") 400,
                  table := [cafe1], closed := true } ∧
    add_cafe form1 (some "OperationalError: disk I/O error") [cafe1] =
      Except.ok { resp := HttpResponse.json (errBody "Error writing to database") 400,
                  table := [cafe1], closed := true } := by
  refine ⟨?_, ?_, ?_⟩
  · exact (c5_add_commit_classification form_missing [cafe1] none
      "x" "x" "x" "x" "x" "x").1 (Or.inl rfl)
  · exact (c5_add_commit_classification form_dup [cafe1] none
      "x" "Cafe A" "http://maps/b" "http://img/b" "Paris" "30").2.1 rfl rfl rfl rfl rfl rfl
  · exact (c5_add_commit_classification form1 [cafe1] none
      "OperationalError: disk I/O error" "Cafe B" "http://maps/b" "http://img/b"
      "Paris" "30").2.2 rfl rfl rfl rfl rfl rfl rfl rfl

/-- C6 counterexample: the 403 answer is correct, but its body nests the
error dict under an error key, so it is not the flat object the claim
states. -/
theorem c6_forbidden_body_not_flat :
    delete_cafe 1 none (some "topsecret") none [cafe1] =
      Except.ok { resp := HttpResponse.json
                    (errBody "Not Authorized to perform this action.") 403,
                  table := [cafe1], closed := false } ∧
    errBody "Not Authorized to perform this action." ≠
      JVal.obj [("error", JVal.str "Not Authorized to perform this action.")] :=
  ⟨rfl, by simp [errBody]⟩

/-- C6 (amended): with a nonempty configured secret, an absent or
different api-key is answered 403 with body (error: (error: Not
Authorized to perform this action.)) and the table untouched; with the
matching key and an absent id the answer is the 404 abort; with the
matching key and an existing id the row is deleted, committed, the
answer is 200 and no row with that id remains. -/
theorem c6_delete_key_and_id (cafe_id : Nat) (api_key : Option String) (s : String)
    (table : List Cafe) (fault : Option String) (hs : s ≠ "") :
    (api_key ≠ some s →
        delete_cafe cafe_id api_key (some s) fault table =
          Except.ok { resp := HttpResponse.json
                        (errBody "Not Authorized to perform this action.") 403,
                      table := table, closed := false }) ∧
    (table.find? (fun r => r.id == cafe_id) = none →
        delete_cafe cafe_id (some s) (some s) fault table =
          Except.ok { resp := HttpResponse.notFoundAbort "This ID Does not Exist.",
                      table := table, closed := false }) ∧
    (∀ c, table.find? (fun r => r.id == cafe_id) = some c →
        delete_cafe cafe_id (some s) (some s) none table =
          Except.ok { resp := HttpResponse.json successBody 200,
                      table := table.filter (fun r => !(r.id == cafe_id)),
                      closed := true } ∧
        ∀ r ∈ table.filter (fun r => !(r.id == cafe_id)), r.id ≠ cafe_id) := by
  refine ⟨?_, ?_, ?_⟩
  · intro hne
    unfold delete_cafe
    rw [if_pos (Or.inr hne)]
  · intro hf
    unfold delete_cafe
    rw [if_neg (delete_guard_pass s hs), hf]
  · intro c hf
    constructor
    · unfold delete_cafe
      rw [if_neg (delete_guard_pass s hs), hf]
    · intro r hr
      have h2 := (List.mem_filter.mp hr).2
      simpa using h2

/-- C6 witness: the amended statement applied at the one-row table with
secret topsecret, for the missing key, the absent id and the existing
id. -/
theorem c6_delete_key_and_id_witness :
    delete_cafe 1 none (some "topsecret") none [cafe1] =
      Except.ok { resp := HttpResponse.json
                    (errBody "Not Authorized to perform this action.") 403,
                  table := [cafe1], closed := false } ∧
    delete_cafe 2 (some "topsecret") (some "topsecret") none [cafe1] =
      Except.ok { resp := HttpResponse.notFoundAbort "This ID Does not Exist.",
                  table := [cafe1], closed := false } ∧
    delete_cafe 1 (some "topsecret") (some "topsecret") none [cafe1] =
      Except.ok { resp := HttpResponse.json successBody 200,
                  table := [cafe1].filter (fun r => !(r.id == 1)), closed := true } := by
  refine ⟨?_, ?_, ?_⟩
  · exact (c6_delete_key_and_id 1 none "topsecret" [cafe1] none (by decide)).1 (by decide)
  · exact (c6_delete_key_and_id 2 (some "topsecret") "topsecret" [cafe1] none (by decide)).2.1 rfl
  · exact ((c6_delete_key_and_id 1 (some "topsecret") "topsecret" [cafe1] none (by decide)).2.2
      cafe1 rfl).1

/-- C7: a missing or empty new_price is answered 400; a present value
with an absent id is answered with the 404 abort carrying the fixed
description; otherwise coffee_price of the identified row is set to the
raw string and committed, the number of rows is preserved, every column
of every row except the coffee_price of the identified row is unchanged,
and rows with a different id are kept verbatim. -/
theorem c7_update_price_frame (cafe_id : Nat) (price : Option String)
    (fault : Option String) (v : String) (table : List Cafe) :
    (pyTruthy price = false →
        update_price cafe_id price fault table =
          Except.ok { resp := HttpResponse.json (errBody "coffee_price cannot be null.") 400,
                      table := table, closed := false }) ∧
    (pyTruthy (some v) = true → table.find? (fun r => r.id == cafe_id) = none →
        update_price cafe_id (some v) fault table =
          Except.ok { resp := HttpResponse.notFoundAbort "This ID Does not Exist.",
                      table := table, closed := false }) ∧
    (∀ c, pyTruthy (some v) = true → table.find? (fun r => r.id == cafe_id) = some c →
        update_price cafe_id (some v) none table =
          Except.ok { resp := HttpResponse.json successBody 200,
                      table := setPrice cafe_id v table, closed := true }) ∧
    (setPrice cafe_id v table).length = table.length ∧
    (∀ r2 ∈ setPrice cafe_id v table, ∃ r, r ∈ table ∧
        r2.id = r.id ∧ r2.name = r.name ∧ r2.map_url = r.map_url ∧
        r2.img_url = r.img_url ∧ r2.location = r.location ∧ r2.seats = r.seats ∧
        r2.has_toilet = r.has_toilet ∧ r2.has_wifi = r.has_wifi ∧
        r2.has_sockets = r.has_sockets ∧ r2.can_take_calls = r.can_take_calls ∧
        r2.coffee_price = (if r.id = cafe_id then some v else r.coffee_price)) ∧
    (∀ r ∈ table, r.id ≠ cafe_id → r ∈ setPrice cafe_id v table) := by
  refine ⟨?_, ?_, ?_, ?_, ?_, ?_⟩
  · intro hp
    unfold update_price
    rw [if_pos hp]
  · intro hv hf
    unfold update_price
    rw [if_neg (by simp [hv]), hf]
  · intro c hv hf
    unfold update_price
    rw [if_neg (by simp [hv]), hf]
    rfl
  · simp [setPrice]
  · intro r2 hr2
    unfold setPrice at hr2
    obtain ⟨r, hr, heq⟩ := List.mem_map.mp hr2
    refine ⟨r, hr, ?_⟩
    by_cases hid : r.id = cafe_id
    · rw [← heq]
      simp [hid]
    · rw [← heq]
      simp [hid]
  · intro r hr hne
    unfold setPrice
    exact List.mem_map.mpr ⟨r, hr, by simp [hne]⟩

/-- C7 witness: the three cases and the frame evaluated on the one-row
table, checking that the subsequent read shows the raw string 4.50. -/
theorem c7_update_price_frame_witness :
    update_price 1 none none [cafe1] =
      Except.ok { resp := HttpResponse.json (errBody "coffee_price cannot be null.") 400,
                  table := [cafe1], closed := false } ∧
    update_price 2 (some "4.50") none [cafe1] =
      Except.ok { resp := HttpResponse.notFoundAbort "This ID Does not Exist.",
                  table := [cafe1], closed := false } ∧
    update_price 1 (some "4.50") none [cafe1] =
      Except.ok { resp := HttpResponse.json successBody 200,
                  table := setPrice 1 "4.50" [cafe1], closed := true } ∧
    setPrice 1 "4.50" [cafe1] = [{ cafe1 with coffee_price := some "4.50" }] := by
  refine ⟨?_, ?_, ?_, rfl⟩
  · exact (c7_update_price_frame 1 none none "x" [cafe1]).1 rfl
  · exact (c7_update_price_frame 2 (some "4.50") none "4.50" [cafe1]).2.1 rfl rfl
  · exact (c7_update_price_frame 1 (some "4.50") none "4.50" [cafe1]).2.2.1 cafe1 rfl rfl

end CafeAPI
